import Mathlib

/-!
Shallow embedding of the authorization core of the Steevo NestJS backend
(user store operations, sign-in request validation, token issue/verify,
authentication guard, authorization policy), together with theorems
checking the natural-language specification against it.

Definitions marked `Modelled from the spec:` embed components of this
repository whose implementation files are not present under src/ (only
their callers, interfaces and tests are); they follow the wording of the
specification.  All other definitions are translated from the source files named
in their doc comments.
-/

namespace Steevo

/-- From src/src/users/entities/user.entity.ts: the UserRole enum. -/
inductive UserRole where
  | ADMIN
  | WORKER
  | SUPERADMIN
deriving DecidableEq, Repr

/-- From src/src/users/entities/user.entity.ts: the User entity, restricted to
the columns the claims mention.  `username` and `email` are nullable columns
(`Option`); `email` and `phoneNumber` carry unique constraints (see the
migration 1771917422665-AlterUserTable.ts); `username` has no unique
constraint.  `role` defaults to WORKER and `isActive` to true at the column
level. -/
structure User where
  id : String
  username : Option String
  email : Option String
  phoneNumber : String
  role : UserRole
  isActive : Bool
deriving DecidableEq, Repr

/-- The HTTP-level error taxonomy raised by the service layer
(NotFoundException, ConflictException, InternalServerErrorException,
UnauthorizedException), with the message where the source supplies one. -/
inductive HttpError where
  | NotFoundE (msg : String)
  | ConflictE (msg : String)
  | InternalE (msg : String)
  | UnauthorizedE
deriving DecidableEq, Repr

/-- HTTP status code of each error in the taxonomy. -/
def statusOf : HttpError → Nat
  | .NotFoundE _ => 404
  | .ConflictE _ => 409
  | .InternalE _ => 500
  | .UnauthorizedE => 401

/-- Database-level errors surfaced to UsersService.create: PostgreSQL error
code 23505 is a unique-constraint violation; anything else is grouped as
`otherError` (the source only distinguishes these two cases). -/
inductive DbError where
  | uniqueViolation23505
  | otherError
deriving DecidableEq, Repr

namespace UsersService

/-- From src/src/users/users.service.ts, `findOne(username)`: a lookup by
username against the repository; returns the first matching record or null
(`none`).  It never throws. -/
def findOne (username : String) (store : List User) : Option User :=
  store.find? (fun u => u.username == some username)

/-- From src/src/users/users.service.ts, `findById(id)`: a lookup by id; when
no record matches it throws NotFoundException with the message built from the
id, otherwise it returns the record.  It never returns null. -/
def findById (id : String) (store : List User) : Except HttpError User :=
  match store.find? (fun u => u.id == id) with
  | none => .error (.NotFoundE ("User with ID \"" ++ id ++ "\" not found"))
  | some u => .ok u

/-- The unique constraints the database enforces on `user` other than the
primary key (from the migration 1771917422665-AlterUserTable.ts): UNIQUE on
phoneNumber and UNIQUE on email (nullable, so only non-null values clash);
`username` carries no unique constraint.  Saving record `u` hits error 23505
exactly when a row with a *different* id clashes with it on one of these
columns — a row with the same id is the row being upserted, not a clash. -/
def uniqueViolation (u : User) (store : List User) : Bool :=
  store.any (fun v =>
    !(v.id == u.id) &&
    (v.phoneNumber == u.phoneNumber ||
      (v.email.isSome && v.email == u.email)))

/-- `usersRepository.save`: TypeORM save upserts by primary key — when a row
with the same id already exists it is updated in place and the call succeeds,
otherwise the record is inserted; in either case a clash with a different row
on a unique column fails with PostgreSQL error 23505. -/
def dbSave (u : User) (store : List User) : Except DbError (User × List User) :=
  if uniqueViolation u store then .error .uniqueViolation23505
  else if store.any (fun v => v.id == u.id) then
    .ok (u, store.map (fun v => if v.id == u.id then u else v))
  else .ok (u, u :: store)

/-- Partial<User> input to `create`: role and isActive may be left unset, in
which case the column defaults of the entity apply on save. -/
structure CreateInput where
  id : String
  username : Option String
  email : Option String
  phoneNumber : String
  role : Option UserRole
  isActive : Option Bool
deriving DecidableEq, Repr

/-- Column defaults from src/src/users/entities/user.entity.ts and the
migration: `role` defaults to WORKER, `isActive` defaults to true. -/
def applyColumnDefaults (ci : CreateInput) : User :=
  { id := ci.id, username := ci.username, email := ci.email,
    phoneNumber := ci.phoneNumber,
    role := ci.role.getD UserRole.WORKER,
    isActive := ci.isActive.getD true }

/-- From src/src/users/users.service.ts, `create(userData)`: builds the
entity and saves it; a 23505 unique violation is mapped to
ConflictException with the message "Username already exists", any other
database error to InternalServerErrorException. -/
def create (ci : CreateInput) (store : List User) :
    Except HttpError (User × List User) :=
  match dbSave (applyColumnDefaults ci) store with
  | .ok r => .ok r
  | .error .uniqueViolation23505 => .error (.ConflictE "Username already exists")
  | .error .otherError => .error (.InternalE "Error creating user")

/-- Role update against the store (PATCH /api/users/:id/role handler named by
the spec): the role of the matching record is replaced, everything else kept. -/
def updateRole (id : String) (r : UserRole) (store : List User) : List User :=
  store.map (fun u => if u.id == id then { u with role := r } else u)

end UsersService

/-- The E.164 phone-number pattern used by the DTOs
(src/src/auth/dto/auth-credentials.dto.ts and
src/src/users/dto/create-user.dto.ts): an optional leading plus sign, then a
digit 1-9, then one to fourteen further digits. -/
def matchesE164 (s : String) : Bool :=
  let cs := s.data
  let body := match cs with
    | '+' :: rest => rest
    | _ => cs
  match body with
  | [] => false
  | c :: rest =>
      ('1' ≤ c && c ≤ '9') &&
      rest.all (fun d => '0' ≤ d && d ≤ '9') &&
      (1 ≤ rest.length && rest.length ≤ 14)

/-- The raw JSON body a client may post to POST /api/auth/signin; each field
is present or absent. -/
structure SignInBody where
  username : Option String
  password : Option String
  phoneNumber : Option String
deriving DecidableEq, Repr

/-- From src/src/auth/dto/auth-credentials.dto.ts: AuthCredentialsDto declares
exactly one validated field, `phoneNumber`, which must be a string matching
the E.164 pattern.  A body with no phoneNumber or a non-matching one fails
validation. -/
def validateAuthCredentials (b : SignInBody) : Bool :=
  match b.phoneNumber with
  | none => false
  | some p => matchesE164 p

/-- Outcome of the POST /api/auth/signin controller pipeline before the
authentication service runs. -/
inductive SignInOutcome where
  | badRequest400
  | delegatedToAuthService (b : SignInBody)
deriving DecidableEq, Repr

/-- From src/src/auth/auth.controller.ts, `signIn`: the body is validated
against AuthCredentialsDto by the ValidationPipe; on failure the request is
rejected with 400 before AuthService.signIn is reached, otherwise the body is
handed to the service. -/
def signInPipeline (b : SignInBody) : SignInOutcome :=
  if validateAuthCredentials b then .delegatedToAuthService b else .badRequest400

/-- Modelled from the spec: the Principal attached to an authenticated
request, `{id, username, role}` (§3); the AuthService building it is not
under src/. -/
structure Principal where
  id : String
  username : String
  role : UserRole
deriving DecidableEq, Repr

/-- From src/src/auth/interfaces/jwt-payload.interface.ts together with the
Token data model of the spec: the claims a token encodes — subject id, username,
role, issued-at and expiry. -/
structure TokenClaims where
  sub : String
  username : String
  role : UserRole
  iat : Nat
  exp : Nat
deriving DecidableEq, Repr

/-- The fixed token lifetime: one hour (spec §3 and §6, README). -/
def TTL : Nat := 3600

/-- Numeric code of a string, used by the modelled signing function. -/
def strCode (s : String) : Nat :=
  s.data.foldl (fun a c => a * 131 + c.toNat + 1) 7

/-- Numeric code of a role, used by the modelled signing function. -/
def roleCode : UserRole → Nat
  | .ADMIN => 0
  | .WORKER => 1
  | .SUPERADMIN => 2

/-- Modelled from the spec: the server-side signing primitive — a
deterministic function of the secret key and the claims (§4.1); the JWT
module wiring is not under src/. -/
def signClaims (secret : Nat) (c : TokenClaims) : Nat :=
  ((((secret * 131 + strCode c.sub) * 131 + strCode c.username) * 131 +
      roleCode c.role) * 131 + c.iat) * 131 + c.exp

/-- A parsed bearer token: its claims together with the signature carried
alongside them. -/
structure Token where
  claims : TokenClaims
  sig : Nat
deriving DecidableEq, Repr

/-- Verification failures of the Token Issuer/Verifier (spec §4.1). -/
inductive VerifyError where
  | InvalidSignature
  | Expired
  | Malformed
deriving DecidableEq, Repr

/-- Modelled from the spec: `issue(principal)` deterministically encodes
subject id, username, role, issued-at and expiry (now + fixed TTL) into a
signed token (§4.1); the AuthService/JwtModule implementing this is not under
src/. -/
def issue (secret now : Nat) (p : Principal) : Token :=
  let c : TokenClaims :=
    { sub := p.id, username := p.username, role := p.role,
      iat := now, exp := now + TTL }
  { claims := c, sig := signClaims secret c }

/-- Modelled from the spec: `verify(token)` checks that the current time is
before the expiry and that the signature matches, failing with `Expired` past
expiry regardless of signature validity (§4.1, §8) and with
`InvalidSignature` on a signature mismatch; on success it yields the
Principal carried by the claims.  The JwtStrategy implementing this is not
under src/. -/
def verify (secret now : Nat) (t : Token) : Except VerifyError Principal :=
  if t.claims.exp ≤ now then .error .Expired
  else if t.sig ≠ signClaims secret t.claims then .error .InvalidSignature
  else .ok { id := t.claims.sub, username := t.claims.username,
             role := t.claims.role }

/-- The Authorization header of an inbound request, as the guard sees it:
missing, present but not of the `Bearer <token>` shape, or a bearer token
(already parsed; an unparseable token string is covered by `notBearer`). -/
inductive AuthHeader where
  | missing
  | notBearer
  | bearer (t : Token)
deriving DecidableEq, Repr

/-- Modelled from the spec: the Authentication Guard (§4.2) — require a
Bearer header, verify the token, re-resolve the subject id against the
Credential Store, reject unknown or inactive users, and build the Principal
from the *current* store record.  The JwtAuthGuard/JwtStrategy implementing
this is not under src/. -/
def authenticate (secret now : Nat) (store : List User) :
    AuthHeader → Except HttpError Principal
  | .missing => .error .UnauthorizedE
  | .notBearer => .error .UnauthorizedE
  | .bearer t =>
    match verify secret now t with
    | .error _ => .error .UnauthorizedE
    | .ok p =>
      match store.find? (fun u => u.id == p.id) with
      | none => .error .UnauthorizedE
      | some u =>
        if u.isActive then
          .ok { id := u.id, username := u.username.getD "", role := u.role }
        else .error .UnauthorizedE

/-- Route guards that NestJS can attach to a controller. -/
inductive RouteGuard where
  | JwtAuthGuard
deriving DecidableEq, Repr

/-- From src/src/users/users.controller.ts: the guards applied to
UsersController.  The `UseGuards(JwtAuthGuard)` decorator is commented out in
the source, so the list is empty and no guard runs on its routes. -/
def usersControllerGuards : List RouteGuard := []

/-- From src/src/users/users.controller.ts, `getMe`: the status code produced
by GET /api/users/me.  When JwtAuthGuard is among the guards of the controller the
request is authenticated first and a guard failure is returned; otherwise the
handler runs unconditionally and replies 200. -/
def getMeStatus (secret now : Nat) (store : List User) (h : AuthHeader) : Nat :=
  if usersControllerGuards.contains RouteGuard.JwtAuthGuard then
    match authenticate secret now store h with
    | .error e => statusOf e
    | .ok _ => 200
  else 200

/-- The operations the Authorization Policy rules over (spec §4.3). -/
inductive Operation where
  | listAllUsers
  | viewUserById
  | updateUserRole
  | createTask
  | deleteTask
  | assignTask
  | listTasks
  | getCurrentProfile
deriving DecidableEq, Repr

/-- The verdict of the Policy (spec §4.3). -/
inductive Decision where
  | Allow
  | Deny
deriving DecidableEq, Repr

/-- The admin-only operation class of spec §4.3 (for viewUserById the
admin-only reading is viewing an *arbitrary* user, i.e. a resource other than
oneself; viewing the own record is the self-or-admin case). -/
def isAdminOnly : Operation → Bool
  | .listAllUsers => true
  | .viewUserById => true
  | .updateUserRole => true
  | .createTask => true
  | .deleteTask => true
  | .assignTask => true
  | .listTasks => false
  | .getCurrentProfile => false

namespace Policy

/-- Modelled from the spec: the pure Authorization Policy
`decide(principal, operation, resourceOwnerOrAssigneeId?)` (§4.3): admin-only
operations allow iff the role of the caller is ADMIN; viewing a specific user is
self-or-admin; listing tasks and reading the own profile allow any
authenticated principal.  The RolesGuard/controllers implementing this are
not under src/. -/
def decide (p : Principal) (op : Operation) (resourceId : Option String) :
    Decision :=
  match op with
  | .listAllUsers => if p.role = UserRole.ADMIN then .Allow else .Deny
  | .updateUserRole => if p.role = UserRole.ADMIN then .Allow else .Deny
  | .createTask => if p.role = UserRole.ADMIN then .Allow else .Deny
  | .deleteTask => if p.role = UserRole.ADMIN then .Allow else .Deny
  | .assignTask => if p.role = UserRole.ADMIN then .Allow else .Deny
  | .viewUserById =>
      if p.role = UserRole.ADMIN ∨ resourceId = some p.id then .Allow else .Deny
  | .listTasks => .Allow
  | .getCurrentProfile => .Allow

/-- Modelled from the spec: `scopeToSelf(principal)` (§4.3) — true for
WORKER (result set restricted to the tasks of the caller), false for ADMIN. -/
def scopeToSelf (p : Principal) : Bool :=
  match p.role with
  | .WORKER => true
  | _ => false

end Policy

/-! Theorems about the claims. -/

/-- Claim C9: UsersService.findOne returns null (`none`) and never raises when
no user has the given username, whereas UsersService.findById raises NotFound
and never returns null when no user has the given id: the two lookups signal
absence differently. -/
theorem findOne_none_findById_notFound (store : List User) (name id : String) :
    (UsersService.findOne name store = none ↔
      ∀ u ∈ store, u.username ≠ some name) ∧
    (UsersService.findById id store =
        .error (.NotFoundE ("User with ID \"" ++ id ++ "\" not found")) ↔
      ∀ u ∈ store, u.id ≠ id) ∧
    (∀ u, UsersService.findById id store = .ok u → u ∈ store ∧ u.id = id) := by
  refine ⟨?_, ?_, ?_⟩
  · simp [UsersService.findOne, List.find?_eq_none]
  · unfold UsersService.findById
    cases hfind : store.find? (fun u => u.id == id) with
    | none =>
        rw [List.find?_eq_none] at hfind
        simpa using hfind
    | some u =>
        have hu : u ∈ store := List.mem_of_find?_eq_some hfind
        have hid : u.id = id := by
          have := List.find?_some hfind
          simpa using this
        simp only []
        constructor
        · intro h; exact absurd h (by simp)
        · intro h; exact absurd hid (h u hu)
  · intro u h
    unfold UsersService.findById at h
    cases hfind : store.find? (fun v => v.id == id) with
    | none => rw [hfind] at h; exact absurd h (by simp)
    | some v =>
        rw [hfind] at h
        have hv : v = u := by simpa using h
        subst hv
        refine ⟨List.mem_of_find?_eq_some hfind, ?_⟩
        have := List.find?_some hfind
        simpa using this

/-- Claim C9 witness: on a store holding one user named bob, looking up a
missing username yields `none` and looking up a missing id yields the
NotFound error. -/
theorem findOne_none_findById_notFound_witness :
    UsersService.findOne "alice"
      [⟨"1", some "bob", none, "+15550000001", UserRole.WORKER, true⟩] = none ∧
    UsersService.findById "2"
      [⟨"1", some "bob", none, "+15550000001", UserRole.WORKER, true⟩] =
      .error (.NotFoundE ("User with ID \"" ++ "2" ++ "\" not found")) :=
  ⟨(findOne_none_findById_notFound
      [⟨"1", some "bob", none, "+15550000001", UserRole.WORKER, true⟩]
      "alice" "2").1.mpr (by decide),
   (findOne_none_findById_notFound
      [⟨"1", some "bob", none, "+15550000001", UserRole.WORKER, true⟩]
      "alice" "2").2.1.mpr (by decide)⟩

/-- Helper: the boolean unique-violation test agrees with the propositional
description of the non-primary-key unique constraints (phoneNumber, non-null
email): saving u clashes exactly when a row with a different id duplicates
one of those columns. -/
theorem uniqueViolation_iff (u : User) (store : List User) :
    UsersService.uniqueViolation u store = true ↔
    ∃ v ∈ store, v.id ≠ u.id ∧ (v.phoneNumber = u.phoneNumber ∨
      ∃ e, v.email = some e ∧ u.email = some e) := by
  unfold UsersService.uniqueViolation
  rw [List.any_eq_true]
  constructor
  · rintro ⟨v, hv, hcond⟩
    refine ⟨v, hv, ?_⟩
    simp only [Bool.and_eq_true, Bool.not_eq_true', beq_eq_false_iff_ne,
      Bool.or_eq_true, beq_iff_eq, Option.isSome_iff_exists] at hcond
    obtain ⟨hne, hrest⟩ := hcond
    refine ⟨hne, ?_⟩
    rcases hrest with hph | ⟨⟨e, he⟩, heq⟩
    · exact Or.inl hph
    · exact Or.inr ⟨e, he, heq ▸ he⟩
  · rintro ⟨v, hv, hne, hrest⟩
    refine ⟨v, hv, ?_⟩
    simp only [Bool.and_eq_true, Bool.not_eq_true', beq_eq_false_iff_ne,
      Bool.or_eq_true, beq_iff_eq, Option.isSome_iff_exists]
    refine ⟨hne, ?_⟩
    rcases hrest with hph | ⟨e, hve, hue⟩
    · exact Or.inl hph
    · exact Or.inr ⟨⟨e, hve⟩, by rw [hve, hue]⟩

/-- Claim C8 counterexample: two users with the same username "dup" but
different ids and phone numbers are both created successfully — the second
creation does not fail with Conflict and a second record is stored, so
username is not unique across stored users. -/
theorem duplicate_username_accepted :
    UsersService.create ⟨"2", some "dup", none, "+15550000002", none, none⟩
      [⟨"1", some "dup", none, "+15550000001", UserRole.WORKER, true⟩] =
      .ok (⟨"2", some "dup", none, "+15550000002", UserRole.WORKER, true⟩,
        [⟨"2", some "dup", none, "+15550000002", UserRole.WORKER, true⟩,
         ⟨"1", some "dup", none, "+15550000001", UserRole.WORKER, true⟩]) ∧
    (⟨"1", some "dup", none, "+15550000001", UserRole.WORKER, true⟩ : User).username =
      (⟨"2", some "dup", none, "+15550000002", UserRole.WORKER, true⟩ : User).username := by
  exact ⟨rfl, rfl⟩

/-- Claim C8 amended: user creation fails with Conflict (HTTP 409, message
"Username already exists") exactly when the saved record clashes with an
existing row of a *different* id on a unique column — a duplicate phoneNumber
or a duplicate non-null email; a record carrying an already-stored id is an
update of that row (save upserts by primary key) and succeeds, and username
carries no unique constraint, so duplicate usernames alone are accepted. -/
theorem create_conflict_iff_unique_violation (ci : UsersService.CreateInput)
    (store : List User) :
    UsersService.create ci store = .error (.ConflictE "Username already exists") ↔
    ∃ v ∈ store, v.id ≠ ci.id ∧ (v.phoneNumber = ci.phoneNumber ∨
      ∃ e, v.email = some e ∧ ci.email = some e) := by
  unfold UsersService.create UsersService.dbSave
  by_cases hviol :
      UsersService.uniqueViolation (UsersService.applyColumnDefaults ci) store = true
  · rw [if_pos hviol]
    exact iff_of_true rfl
      ((uniqueViolation_iff (UsersService.applyColumnDefaults ci) store).mp hviol)
  · rw [if_neg hviol]
    refine iff_of_false ?_ ?_
    · by_cases hany : store.any
          (fun v => v.id == (UsersService.applyColumnDefaults ci).id) = true
      · rw [if_pos hany]; simp
      · rw [if_neg hany]; simp
    · intro h
      exact hviol
        ((uniqueViolation_iff (UsersService.applyColumnDefaults ci) store).mpr h)

/-- Claim C3 counterexample: a signin body of the documented
{username, password} shape — whether the credentials are the valid pair the
e2e tests store or an invalid pair — fails AuthCredentialsDto validation
(which requires a phoneNumber) and is rejected with 400 before the
authentication service runs, so it yields neither 200 nor 401. -/
theorem signin_username_password_rejected :
    signInPipeline ⟨some "admin_user", some "AdminPass123!", none⟩ =
      .badRequest400 ∧
    signInPipeline ⟨some "nonexistent_user", some "SomePassword123!", none⟩ =
      .badRequest400 ∧
    SignInOutcome.badRequest400 ≠
      .delegatedToAuthService ⟨some "admin_user", some "AdminPass123!", none⟩ := by
  exact ⟨rfl, rfl, by decide⟩

/-- Claim C3 amended: POST /api/auth/signin accepts a request body of
{phoneNumber}; the body reaches the authentication service exactly when its
phoneNumber is present and matches the E.164 pattern, and otherwise — in
particular for {username, password} bodies — it is rejected with 400 by
validation. -/
theorem signin_accepts_exactly_e164_phone (b : SignInBody) :
    (signInPipeline b = .delegatedToAuthService b ↔
      ∃ p, b.phoneNumber = some p ∧ matchesE164 p = true) ∧
    (signInPipeline b = .badRequest400 ↔
      ¬ ∃ p, b.phoneNumber = some p ∧ matchesE164 p = true) := by
  unfold signInPipeline validateAuthCredentials
  cases hp : b.phoneNumber with
  | none => simp
  | some p =>
      by_cases hm : matchesE164 p = true
      · simp [hm]
      · simp [hm]

/-- Claim C2: the UseGuards(JwtAuthGuard) decorator on UsersController is
commented out in the source, so GET /api/users/me runs no guard: a request
with a missing Authorization header, and one whose header is not of the
Bearer shape, both receive 200 instead of the 401 the specification and the
e2e tests require. -/
theorem getMe_unauthenticated_not_rejected :
    usersControllerGuards = [] ∧
    getMeStatus 0 0 [] AuthHeader.missing = 200 ∧
    getMeStatus 0 0 [] AuthHeader.notBearer = 200 ∧
    (200 : Nat) ≠ 401 := by
  exact ⟨rfl, rfl, rfl, by decide⟩

/-- Helper: verifying a freshly issued token before its TTL elapses succeeds
and returns the issuing principal (shared by the round-trip and guard
theorems). -/
theorem verify_issue (secret now1 now2 : Nat) (p : Principal)
    (h : now2 < now1 + TTL) :
    verify secret now2 (issue secret now1 p) = .ok p := by
  obtain ⟨pid, pname, prole⟩ := p
  have hne : ¬ (now1 + TTL ≤ now2) := Nat.not_le.mpr h
  simp [issue, verify, hne]

/-- Claim C4: a token produced by issue(P) and verified before its TTL
elapses (and before any role change) succeeds and yields a Principal with
the same id, username and role as P. -/
theorem issue_verify_roundtrip (secret now1 now2 : Nat) (p : Principal)
    (h : now2 < now1 + TTL) :
    verify secret now2 (issue secret now1 p) = .ok p :=
  verify_issue secret now1 now2 p h

/-- Claim C4 witness: the round trip at a concrete principal and times. -/
theorem issue_verify_roundtrip_witness :
    (10 : Nat) < 0 + TTL ∧
    verify 7 10 (issue 7 0 ⟨"1", "alice", UserRole.ADMIN⟩) =
      .ok ⟨"1", "alice", UserRole.ADMIN⟩ :=
  ⟨by decide, issue_verify_roundtrip 7 0 10 ⟨"1", "alice", UserRole.ADMIN⟩
    (by decide)⟩

/-- Claim C5: verifying any token whose expiry has passed fails with Expired,
regardless of whether its signature is valid (the expiry check runs before
the signature comparison). -/
theorem verify_expired (secret now : Nat) (t : Token)
    (h : t.claims.exp ≤ now) :
    verify secret now t = .error VerifyError.Expired := by
  unfold verify
  rw [if_pos h]

/-- Claim C5 witness: an expired token with a signature that does not match
the signing key still fails with Expired, not InvalidSignature. -/
theorem verify_expired_witness :
    (⟨⟨"1", "alice", UserRole.WORKER, 0, 100⟩, 0⟩ : Token).claims.exp ≤ 100 ∧
    (0 : Nat) ≠ signClaims 42 ⟨"1", "alice", UserRole.WORKER, 0, 100⟩ ∧
    verify 42 100 ⟨⟨"1", "alice", UserRole.WORKER, 0, 100⟩, 0⟩ =
      .error VerifyError.Expired :=
  ⟨by decide, by decide,
   verify_expired 42 100 ⟨⟨"1", "alice", UserRole.WORKER, 0, 100⟩, 0⟩
     (by decide)⟩

/-- Claim C7: when a token verifies successfully but its subject id does not
resolve to a user record in the store, or the resolved record has
isActive = false, the Authentication Guard rejects the request with
Unauthorized. -/
theorem guard_rejects_unknown_or_inactive (secret now : Nat)
    (store : List User) (t : Token) (p : Principal)
    (hv : verify secret now t = .ok p)
    (h : store.find? (fun u => u.id == p.id) = none ∨
         ∃ u, store.find? (fun v => v.id == p.id) = some u ∧ u.isActive = false) :
    authenticate secret now store (.bearer t) = .error HttpError.UnauthorizedE := by
  rcases h with hnone | ⟨u, hu, hact⟩
  · simp [authenticate, hv, hnone]
  · simp [authenticate, hv, hu, hact]

set_option maxRecDepth 10000 in
/-- Claim C7 witness: a valid token whose subject is absent from the store is
rejected, and a valid token whose subject is present but deactivated is
rejected. -/
theorem guard_rejects_unknown_or_inactive_witness :
    verify 7 10 (issue 7 0 ⟨"9", "ghost", UserRole.ADMIN⟩) =
      .ok ⟨"9", "ghost", UserRole.ADMIN⟩ ∧
    ([] : List User).find? (fun u => u.id == "9") = none ∧
    authenticate 7 10 [] (.bearer (issue 7 0 ⟨"9", "ghost", UserRole.ADMIN⟩)) =
      .error HttpError.UnauthorizedE ∧
    ([⟨"9", some "ghost", none, "+15550000009", UserRole.ADMIN, false⟩] :
        List User).find? (fun v => v.id == "9") =
      some ⟨"9", some "ghost", none, "+15550000009", UserRole.ADMIN, false⟩ ∧
    authenticate 7 10
        [⟨"9", some "ghost", none, "+15550000009", UserRole.ADMIN, false⟩]
        (.bearer (issue 7 0 ⟨"9", "ghost", UserRole.ADMIN⟩)) =
      .error HttpError.UnauthorizedE :=
  ⟨rfl, rfl,
   guard_rejects_unknown_or_inactive 7 10 []
     (issue 7 0 ⟨"9", "ghost", UserRole.ADMIN⟩)
     ⟨"9", "ghost", UserRole.ADMIN⟩ rfl (Or.inl rfl),
   rfl,
   guard_rejects_unknown_or_inactive 7 10
     [⟨"9", some "ghost", none, "+15550000009", UserRole.ADMIN, false⟩]
     (issue 7 0 ⟨"9", "ghost", UserRole.ADMIN⟩)
     ⟨"9", "ghost", UserRole.ADMIN⟩ rfl
     (Or.inr ⟨⟨"9", some "ghost", none, "+15550000009", UserRole.ADMIN, false⟩,
       rfl, rfl⟩)⟩

/-- Helper: updating the role of user id `i` leaves lookup by `i` pointing at
the same record with only its role replaced. -/
theorem find_updateRole (i : String) (r : UserRole) (store : List User)
    (u : User) (h : store.find? (fun v => v.id == i) = some u) :
    (UsersService.updateRole i r store).find? (fun v => v.id == i) =
      some { u with role := r } := by
  induction store with
  | nil => simp at h
  | cons v tl ih =>
    rw [UsersService.updateRole, List.map_cons]
    by_cases hv : v.id = i
    · have hb : (v.id == i) = true := beq_iff_eq.mpr hv
      rw [List.find?_cons_of_pos (p := fun (w : User) => w.id == i) _ hb] at h
      have huv : v = u := by simpa using h
      subst huv
      have hb2 : (({ v with role := r } : User).id == i) = true := hb
      rw [if_pos hb,
        List.find?_cons_of_pos (p := fun (w : User) => w.id == i) _ hb2]
    · have hb : ¬ ((v.id == i) = true) := by simpa using hv
      rw [List.find?_cons_of_neg (p := fun (w : User) => w.id == i) _ hb] at h
      have hb3 : ¬ ((v.id == i) = true) := hb
      rw [if_neg hb,
        List.find?_cons_of_neg (p := fun (w : User) => w.id == i) _ hb3]
      exact ih h

/-- Claim C6: when the role of a user changes after token issuance and before
expiry, authenticating with the old token yields a Principal carrying the
current post-change role read from the store, while the token itself still
embeds the old role. -/
theorem guard_resolves_current_role (secret now1 now2 : Nat) (u : User)
    (store : List User) (r2 : UserRole)
    (hTTL : now2 < now1 + TTL)
    (hfind : store.find? (fun v => v.id == u.id) = some u)
    (hact : u.isActive = true) :
    (issue secret now1 ⟨u.id, u.username.getD "", u.role⟩).claims.role = u.role ∧
    authenticate secret now2 (UsersService.updateRole u.id r2 store)
        (.bearer (issue secret now1 ⟨u.id, u.username.getD "", u.role⟩)) =
      .ok ⟨u.id, u.username.getD "", r2⟩ := by
  refine ⟨rfl, ?_⟩
  have hv := verify_issue secret now1 now2 ⟨u.id, u.username.getD "", u.role⟩ hTTL
  have hf := find_updateRole u.id r2 store u hfind
  have hact2 : ({ u with role := r2 } : User).isActive = true := hact
  simp [authenticate, hv, hf, hact2, hact]

set_option maxRecDepth 10000 in
/-- Claim C6 witness: a worker whose role is raised to ADMIN after issuance is
authenticated with the old token as an ADMIN, while the token still carries
WORKER. -/
theorem guard_resolves_current_role_witness :
    (10 : Nat) < 0 + TTL ∧
    ([⟨"1", some "alice", none, "+15550000001", UserRole.WORKER, true⟩] :
        List User).find? (fun v => v.id == "1") =
      some ⟨"1", some "alice", none, "+15550000001", UserRole.WORKER, true⟩ ∧
    (issue 7 0 ⟨"1", "alice", UserRole.WORKER⟩).claims.role = UserRole.WORKER ∧
    authenticate 7 10
        (UsersService.updateRole "1" UserRole.ADMIN
          [⟨"1", some "alice", none, "+15550000001", UserRole.WORKER, true⟩])
        (.bearer (issue 7 0 ⟨"1", "alice", UserRole.WORKER⟩)) =
      .ok ⟨"1", "alice", UserRole.ADMIN⟩ :=
  ⟨by decide, rfl,
   (guard_resolves_current_role 7 0 10
     ⟨"1", some "alice", none, "+15550000001", UserRole.WORKER, true⟩
     [⟨"1", some "alice", none, "+15550000001", UserRole.WORKER, true⟩]
     UserRole.ADMIN (by decide) rfl rfl).1,
   (guard_resolves_current_role 7 0 10
     ⟨"1", some "alice", none, "+15550000001", UserRole.WORKER, true⟩
     [⟨"1", some "alice", none, "+15550000001", UserRole.WORKER, true⟩]
     UserRole.ADMIN (by decide) rfl rfl).2⟩

/-- Claim C1: for every principal and every admin-only operation (listing all
users, viewing an arbitrary other user by id, updating a role, creating,
deleting or assigning a task), the Policy allows exactly when the role of the
principal is ADMIN, and denies otherwise. -/
theorem decide_admin_only_iff_admin (p : Principal) (op : Operation)
    (rid : Option String) (hop : isAdminOnly op = true)
    (harb : op = Operation.viewUserById → rid ≠ some p.id) :
    Policy.decide p op rid = Decision.Allow ↔ p.role = UserRole.ADMIN := by
  cases op
  case viewUserById =>
    have hrid : rid ≠ some p.id := harb rfl
    by_cases hr : p.role = UserRole.ADMIN
    · simp [Policy.decide, hr]
    · simp [Policy.decide, hr, hrid]
  case listTasks => simp [isAdminOnly] at hop
  case getCurrentProfile => simp [isAdminOnly] at hop
  all_goals
    by_cases hr : p.role = UserRole.ADMIN
  all_goals
    simp [Policy.decide, hr]

/-- Claim C1 witness: an ADMIN principal is allowed to create a task and a
WORKER principal is denied listing all users, each matching the iff. -/
theorem decide_admin_only_iff_admin_witness :
    isAdminOnly Operation.createTask = true ∧
    (Policy.decide ⟨"1", "alice", UserRole.ADMIN⟩ Operation.createTask none =
        Decision.Allow ↔
      (⟨"1", "alice", UserRole.ADMIN⟩ : Principal).role = UserRole.ADMIN) ∧
    isAdminOnly Operation.listAllUsers = true ∧
    (Policy.decide ⟨"2", "bob", UserRole.WORKER⟩ Operation.listAllUsers none =
        Decision.Allow ↔
      (⟨"2", "bob", UserRole.WORKER⟩ : Principal).role = UserRole.ADMIN) :=
  ⟨rfl,
   decide_admin_only_iff_admin ⟨"1", "alice", UserRole.ADMIN⟩
     Operation.createTask none rfl (by decide),
   rfl,
   decide_admin_only_iff_admin ⟨"2", "bob", UserRole.WORKER⟩
     Operation.listAllUsers none rfl (by decide)⟩

end Steevo
